import Mathlib

/-!
Verification development for the farmwise-crop repository.

The embedding covers:
* the summarization proxy route (src/app/api/gemini/route.ts, handler POST);
* the client-side feed component (CommunityFeed): summarizeWithGemini,
  getAIAdvice, speakWithElevenLabs, handleSubmit and the post-list updates.

JSON bodies are modelled by a small inductive Json type; outbound fetch
calls are modelled by quantifying over an explicit outcome type, since the
network is outside the program.
-/

namespace Farmwise

/-- A JSON value, as passed between the client, the proxy routes and the
external providers. -/
inductive Json where
  | null : Json
  | bool (b : Bool) : Json
  | num (n : Int) : Json
  | str (s : String) : Json
  | arr (elems : List Json) : Json
  | obj (fields : List (String × Json)) : Json

/-- Field access on a JSON object: `none` models the JavaScript value
`undefined` for a missing property or a non-object receiver. -/
def Json.getField? : Json → String → Option Json
  | .obj fields, k => fields.lookup k
  | _, _ => none

/-- JavaScript truthiness of a JSON value (as used by the `||` operator in
the client code). -/
def jsTruthy : Json → Bool
  | .null => false
  | .bool b => b
  | .num n => n != 0
  | .str s => s != ""
  | .arr _ => true
  | .obj _ => true

/-- `a || b` on JavaScript values: the left operand when truthy, else the
right operand. -/
def jsOr (a b : Json) : Json := if jsTruthy a then a else b

/-- Property read `data.k` in JavaScript: the field when present, else
`undefined` (modelled by `Json.null`, which is falsy like `undefined`). -/
def jsField (j : Json) (k : String) : Json := (j.getField? k).getD .null

/-- The outcome of one `fetch` call as the calling code observes it:
the promise rejects, or it resolves with a status code and a body.
`body = none` models a payload on which `.json()` throws (not JSON). -/
inductive FetchOutcome where
  | throws : FetchOutcome
  | returns (status : Nat) (body : Option Json) : FetchOutcome

/-- `response.ok`: status in the 2xx range. -/
def statusOk (status : Nat) : Bool := decide (200 ≤ status ∧ status < 300)

/-! ### The summarization proxy route (src/app/api/gemini/route.ts) -/

namespace GeminiRoute

/-- The environment variables the summarization route's configuration
surface consists of. -/
structure Env where
  GEMINI_API_KEY : Option String
  GEMINI_MODEL : Option String
  deriving DecidableEq, Repr

/-- Template-literal interpolation of an environment variable: an unset
variable (`undefined`) renders as the string "undefined". -/
def envString : Option String → String
  | some s => s
  | none => "undefined"

/-- The provider URL built on line 5 of route.ts: the model segment is the
literal "gemini-pro" and the key is interpolated from GEMINI_API_KEY. -/
def geminiUrl (env : Env) : String :=
  "https://generativelanguage.googleapis.com/v1beta/models/gemini-pro:generateContent?key="
    ++ envString env.GEMINI_API_KEY

/-- The outbound request body built on line 9 of route.ts. -/
def geminiRequestBody (text : Json) : Json :=
  .obj [("contents", .arr [ .obj [("parts", .arr [ .obj [("text", text)] ])] ])]

/-- What a route handler invocation produces: an HTTP response, or an
exception that escapes the handler uncaught. -/
inductive HandlerResult where
  | response (status : Nat) (body : Json) : HandlerResult
  | uncaught : HandlerResult

/-- One run of the route handler: its result, whether an outbound provider
call was made, and the URL and body of that call. -/
structure RouteRun where
  result : HandlerResult
  forwarded : Bool
  url : String
  sent : Json

/-- Shallow embedding of the handler POST of src/app/api/gemini/route.ts.
`text` is the field destructured from the request body; `provider` is the
outcome of the `fetch` to the provider.  The handler builds the URL,
forwards unconditionally, parses the provider body with `.json()` (which
throws on a non-JSON payload, and nothing catches it), and relays the
parsed value via `NextResponse.json(result)`, which replies with
status 200. -/
def POST (env : Env) (text : Json) (provider : FetchOutcome) : RouteRun :=
  let url := geminiUrl env
  let sent := geminiRequestBody text
  match provider with
  | .throws => { result := .uncaught, forwarded := true, url := url, sent := sent }
  | .returns _s none => { result := .uncaught, forwarded := true, url := url, sent := sent }
  | .returns _s (some j) => { result := .response 200 j, forwarded := true, url := url, sent := sent }

end GeminiRoute

/-- Success-body shape of the summarization endpoint as the spec states it:
an object whose "summary" field is a non-empty string. -/
def isSummarySuccessBody (j : Json) : Bool :=
  match j.getField? "summary" with
  | some (.str s) => s != ""
  | _ => false

/-- Structured-error shape as the spec states it: an object whose "error"
field is a string. -/
def isErrorBody (j : Json) : Bool :=
  match j.getField? "error" with
  | some (.str _) => true
  | _ => false

/-- A representative successful provider payload: a first candidate whose
content holds the text of the summary. -/
def geminiSuccessPayload : Json :=
  .obj [("candidates", .arr [ .obj [("content",
    .obj [("parts", .arr [ .obj [("text", .str "A short summary.")] ])])] ])]

/-- A representative provider rejection payload for an invalid key: its
"error" field is an object, not a string. -/
def geminiKeyErrorPayload : Json :=
  .obj [("error", .obj [("code", .num 400),
    ("message", .str "API key not valid. Please pass a valid API key."),
    ("status", .str "INVALID_ARGUMENT")])]

/-- C1: the claim says the route replies with a success body holding a
non-empty summary equal to the provider's first candidate text, or a
structured error body.  Evaluating the handler on a successful provider
call shows it relays the raw provider payload with status 200, a body that
is neither a summary success body nor a structured error body. -/
theorem claim_C1_raw_relay :
    (GeminiRoute.POST ⟨some "k", none⟩ (.str "Long soil report")
        (.returns 200 (some geminiSuccessPayload))).result
      = .response 200 geminiSuccessPayload
    ∧ isSummarySuccessBody geminiSuccessPayload = false
    ∧ isErrorBody geminiSuccessPayload = false :=
  ⟨rfl, rfl, rfl⟩

/-- C2: the claim says that with no credential configured the handler
replies with a structured error (status 500) without forwarding.
Evaluating the handler with GEMINI_API_KEY unset shows it still forwards
the call, with the literal "undefined" interpolated into the key query
parameter, and relays the provider's rejection payload with status 200. -/
theorem claim_C2_forwards_without_key :
    (GeminiRoute.POST ⟨none, none⟩ (.str "hello")
        (.returns 400 (some geminiKeyErrorPayload))).forwarded = true
    ∧ (GeminiRoute.POST ⟨none, none⟩ (.str "hello")
        (.returns 400 (some geminiKeyErrorPayload))).url
      = "https://generativelanguage.googleapis.com/v1beta/models/gemini-pro:generateContent?key=undefined"
    ∧ (GeminiRoute.POST ⟨none, none⟩ (.str "hello")
        (.returns 400 (some geminiKeyErrorPayload))).result
      = .response 200 geminiKeyErrorPayload :=
  ⟨rfl, rfl, rfl⟩

/-- C3: the claim says every provider-side failure is caught inside the
handler and converted into a structured response.  The handler has no
try/catch: when the provider fetch rejects, or when the provider payload
is not JSON, the exception escapes the handler uncaught. -/
theorem claim_C3_uncaught_failures :
    (GeminiRoute.POST ⟨some "k", none⟩ (.str "hello") .throws).result
      = GeminiRoute.HandlerResult.uncaught
    ∧ (GeminiRoute.POST ⟨some "k", none⟩ (.str "hello") (.returns 200 none)).result
      = GeminiRoute.HandlerResult.uncaught :=
  ⟨rfl, rfl⟩

/-- C8: the claim says the targeted model is resolved from an optional
environment override.  The URL the handler builds is independent of
GEMINI_MODEL and always targets the literal model segment "gemini-pro":
setting the override changes nothing. -/
theorem claim_C8_model_hardcoded :
    GeminiRoute.geminiUrl ⟨some "k", some "gemini-2.5-flash"⟩
      = GeminiRoute.geminiUrl ⟨some "k", none⟩
    ∧ GeminiRoute.geminiUrl ⟨some "k", some "gemini-2.5-flash"⟩
      = "https://generativelanguage.googleapis.com/v1beta/models/gemini-pro:generateContent?key=k" :=
  ⟨rfl, rfl⟩

/-! ### Client feed component: summarization and advice calls -/

/-- Whether an `Except` run ended in the catch branch. -/
def exceptFailed : Except Unit Json → Bool
  | .ok _ => false
  | .error _ => true

/-- The local fallback summary built in the catch branch of
summarizeWithGemini: the text itself when its length is at most 100,
otherwise its first 100 characters followed by "...". -/
def fallbackSummary (text : String) : String :=
  if text.length > 100 then text.take 100 ++ "..." else text

/-- The try-block of summarizeWithGemini: throws when the fetch rejects,
when a response body fails to parse as JSON, or when the response status
is not ok (the code then throws an Error built from the error body).  On a
2xx response it yields `data.summary || "Unable to generate summary"`. -/
def summarizeTry (proxy : FetchOutcome) : Except Unit Json :=
  match proxy with
  | .throws => .error ()
  | .returns _s none => .error ()
  | .returns s (some data) =>
      if statusOk s then
        .ok (jsOr (jsField data "summary") (.str "Unable to generate summary"))
      else
        .error ()

/-- Shallow embedding of summarizeWithGemini from the feed component: run
the try-block, and in the catch branch return the local truncation
fallback. -/
def summarizeWithGemini (text : String) (proxy : FetchOutcome) : Json :=
  match summarizeTry proxy with
  | .ok v => v
  | .error _ => .str (fallbackSummary text)

/-- The try-block of getAIAdvice: throws when the fetch rejects, when the
body fails to parse, or when the response status is not ok.  On a 2xx
response it yields
`data.final_output || data.text || "Unable to generate advice"`. -/
def adviceTry (proxy : FetchOutcome) : Except Unit Json :=
  match proxy with
  | .throws => .error ()
  | .returns _s none => .error ()
  | .returns s (some data) =>
      if statusOk s then
        .ok (jsOr (jsOr (jsField data "final_output") (jsField data "text"))
          (.str "Unable to generate advice"))
      else
        .error ()

/-- Shallow embedding of getAIAdvice from the feed component: run the
try-block, and in the catch branch return the canned unavailability
string.  Totality of this function is the "never rejects" part of the
contract: every failure of the try-block is caught. -/
def getAIAdvice (_input : String) (proxy : FetchOutcome) : Json :=
  match adviceTry proxy with
  | .ok v => v
  | .error _ => .str "AI advice temporarily unavailable"

/-- The response-schema condition of the proxy endpoints: the field `k` of
a returned JSON body, when present, is a string. -/
def fieldIsStrOrAbsent (j : Json) (k : String) : Bool :=
  match j.getField? k with
  | none => true
  | some (.str _) => true
  | some _ => false

/-- A fetch outcome respects the endpoint schema for field `k` when any
JSON body it carries has `k` as a string or absent. -/
def outcomeFieldOk (proxy : FetchOutcome) (k : String) : Bool :=
  match proxy with
  | .returns _ (some data) => fieldIsStrOrAbsent data k
  | _ => true

/-- The provider's final_output as delivered through the advice proxy:
present only on an ok response whose body has a string final_output. -/
def proxyFinalOutput (proxy : FetchOutcome) : Option String :=
  match proxy with
  | .returns s (some data) =>
      if statusOk s then
        match data.getField? "final_output" with
        | some (.str v) => some v
        | _ => none
      else none
  | _ => none

theorem jsOr_str_of_ne (s : String) (b : Json) (h : s ≠ "") :
    jsOr (.str s) b = .str s := by
  unfold jsOr jsTruthy
  rw [if_pos]
  exact bne_iff_ne.mpr h

theorem jsOr_str_empty (b : Json) : jsOr (.str "") b = b := by
  simp [jsOr, jsTruthy]

theorem jsOr_null (b : Json) : jsOr .null b = b := by
  simp [jsOr, jsTruthy]

theorem fallbackSummary_ne (text : String) (h : text ≠ "") :
    fallbackSummary text ≠ "" := by
  unfold fallbackSummary
  split
  · intro hc
    have h2 := congrArg String.length hc
    rw [String.length_append] at h2
    have h3 : ("..." : String).length = 3 := rfl
    have h0 : ("" : String).length = 0 := rfl
    rw [h3, h0] at h2
    omega
  · exact h

/-- C6: for every non-empty post content and every proxy outcome whose
body respects the summarization response schema, the client summarization
yields a non-empty string; and whenever its try-block fails (the proxy
call failed), the result is exactly the local truncation fallback. -/
theorem claim_C6_summarize_total (text : String) (proxy : FetchOutcome)
    (htext : text ≠ "") (hschema : outcomeFieldOk proxy "summary" = true) :
    (∃ s : String, summarizeWithGemini text proxy = .str s ∧ s ≠ "")
    ∧ (exceptFailed (summarizeTry proxy) = true →
        summarizeWithGemini text proxy = .str (fallbackSummary text)) := by
  match proxy with
  | .throws =>
      exact ⟨⟨fallbackSummary text, rfl, fallbackSummary_ne text htext⟩, fun _ => rfl⟩
  | .returns st none =>
      exact ⟨⟨fallbackSummary text, rfl, fallbackSummary_ne text htext⟩, fun _ => rfl⟩
  | .returns st (some data) =>
      cases hst : statusOk st with
      | false =>
          refine ⟨⟨fallbackSummary text, ?_, fallbackSummary_ne text htext⟩, fun _ => ?_⟩
          · simp [summarizeWithGemini, summarizeTry, hst]
          · simp [summarizeWithGemini, summarizeTry, hst]
      | true =>
          have hnofail : ∀ hfail : exceptFailed (summarizeTry (.returns st (some data))) = true,
              summarizeWithGemini text (.returns st (some data))
                = .str (fallbackSummary text) := by
            intro hfail
            simp [summarizeTry, hst, exceptFailed] at hfail
          have hres : summarizeWithGemini text (.returns st (some data))
              = jsOr (jsField data "summary") (.str "Unable to generate summary") := by
            simp [summarizeWithGemini, summarizeTry, hst]
          refine ⟨?_, hnofail⟩
          cases hfield : data.getField? "summary" with
          | none =>
              refine ⟨"Unable to generate summary", ?_, by decide⟩
              rw [hres]
              simp [jsField, hfield, jsOr_null]
          | some v =>
              match v with
              | .str s =>
                  by_cases hs : s = ""
                  · subst hs
                    refine ⟨"Unable to generate summary", ?_, by decide⟩
                    rw [hres]
                    simp [jsField, hfield, jsOr_str_empty]
                  · refine ⟨s, ?_, hs⟩
                    rw [hres]
                    simp [jsField, hfield, jsOr_str_of_ne s _ hs]
              | .null =>
                  exfalso; simp [outcomeFieldOk, fieldIsStrOrAbsent, hfield] at hschema
              | .bool b =>
                  exfalso; simp [outcomeFieldOk, fieldIsStrOrAbsent, hfield] at hschema
              | .num n =>
                  exfalso; simp [outcomeFieldOk, fieldIsStrOrAbsent, hfield] at hschema
              | .arr xs =>
                  exfalso; simp [outcomeFieldOk, fieldIsStrOrAbsent, hfield] at hschema
              | .obj fs =>
                  exfalso; simp [outcomeFieldOk, fieldIsStrOrAbsent, hfield] at hschema

/-- C6 witness: the fallback path at a concrete non-empty text and a
rejected proxy call. -/
theorem claim_C6_summarize_total_witness :
    ("Is my soil too acidic?" ≠ "" ∧ outcomeFieldOk .throws "summary" = true)
    ∧ ((∃ s : String,
          summarizeWithGemini "Is my soil too acidic?" .throws = .str s ∧ s ≠ "")
        ∧ (exceptFailed (summarizeTry .throws) = true →
            summarizeWithGemini "Is my soil too acidic?" .throws
              = .str (fallbackSummary "Is my soil too acidic?"))) :=
  ⟨⟨by decide, rfl⟩,
    claim_C6_summarize_total "Is my soil too acidic?" .throws (by decide) rfl⟩

theorem jsField_of_schema (data : Json) (k : String)
    (h : fieldIsStrOrAbsent data k = true) :
    jsField data k = .null ∨ ∃ s, jsField data k = .str s := by
  unfold fieldIsStrOrAbsent at h
  unfold jsField
  cases hf : data.getField? k with
  | none => left; rfl
  | some v =>
      rw [hf] at h
      match v with
      | .str s => right; exact ⟨s, rfl⟩
      | .null => simp at h
      | .bool b => simp at h
      | .num n => simp at h
      | .arr xs => simp at h
      | .obj fs => simp at h

theorem jsOr_chain (a b : Json) (d : String)
    (ha : a = .null ∨ ∃ s, a = .str s) (hb : b = .null ∨ ∃ s, b = .str s)
    (hd : d ≠ "") :
    ∃ s, jsOr (jsOr a b) (.str d) = .str s ∧ s ≠ "" := by
  have hbcase : ∃ s, jsOr b (.str d) = .str s ∧ s ≠ "" := by
    rcases hb with hb | ⟨sb, hb⟩
    · subst hb; exact ⟨d, by rw [jsOr_null], hd⟩
    · subst hb
      by_cases hsb : sb = ""
      · subst hsb; exact ⟨d, by rw [jsOr_str_empty], hd⟩
      · exact ⟨sb, jsOr_str_of_ne sb _ hsb, hsb⟩
  rcases ha with ha | ⟨sa, ha⟩
  · subst ha; rw [jsOr_null]; exact hbcase
  · subst ha
    by_cases hsa : sa = ""
    · subst hsa; rw [jsOr_str_empty]; exact hbcase
    · rw [jsOr_str_of_ne sa _ hsa, jsOr_str_of_ne sa _ hsa]
      exact ⟨sa, rfl, hsa⟩

theorem jsOr_chain_left (a b : Json) (d s : String) (ha : a = .str s)
    (hs : s ≠ "") : jsOr (jsOr a b) (.str d) = .str s := by
  subst ha
  rw [jsOr_str_of_ne s _ hs, jsOr_str_of_ne s _ hs]

/-- C5: for every prompt and every proxy outcome respecting the advice
response schema, the client advice call yields a non-empty string; when
the proxy delivered a non-empty final_output, the result is exactly that
final_output; and whenever its try-block fails, the result is the canned
unavailability string.  The function is total: no failure of the
try-block escapes to the caller. -/
theorem claim_C5_advice_total (input : String) (proxy : FetchOutcome)
    (hfo : outcomeFieldOk proxy "final_output" = true)
    (htx : outcomeFieldOk proxy "text" = true) :
    (∃ s : String, getAIAdvice input proxy = .str s ∧ s ≠ "")
    ∧ (∀ s : String, proxyFinalOutput proxy = some s → s ≠ "" →
        getAIAdvice input proxy = .str s)
    ∧ (exceptFailed (adviceTry proxy) = true →
        getAIAdvice input proxy = .str "AI advice temporarily unavailable") := by
  match proxy with
  | .throws =>
      refine ⟨⟨"AI advice temporarily unavailable", rfl, by decide⟩, ?_, fun _ => rfl⟩
      intro s hsome _
      simp [proxyFinalOutput] at hsome
  | .returns st none =>
      refine ⟨⟨"AI advice temporarily unavailable", rfl, by decide⟩, ?_, fun _ => rfl⟩
      intro s hsome _
      simp [proxyFinalOutput] at hsome
  | .returns st (some data) =>
      cases hst : statusOk st with
      | false =>
          refine ⟨⟨"AI advice temporarily unavailable", ?_, by decide⟩, ?_, fun _ => ?_⟩
          · simp [getAIAdvice, adviceTry, hst]
          · intro s hsome _
            simp [proxyFinalOutput, hst] at hsome
          · simp [getAIAdvice, adviceTry, hst]
      | true =>
          have hres : getAIAdvice input (.returns st (some data))
              = jsOr (jsOr (jsField data "final_output") (jsField data "text"))
                  (.str "Unable to generate advice") := by
            simp [getAIAdvice, adviceTry, hst]
          have hBshape := jsField_of_schema data "text"
            (by simpa [outcomeFieldOk] using htx)
          have hthd : ∀ hfail : exceptFailed (adviceTry (.returns st (some data))) = true,
              getAIAdvice input (.returns st (some data))
                = .str "AI advice temporarily unavailable" := by
            intro hfail
            simp [adviceTry, hst, exceptFailed] at hfail
          cases hfield : data.getField? "final_output" with
          | none =>
              refine ⟨?_, ?_, hthd⟩
              · rw [hres]
                exact jsOr_chain _ _ _ (Or.inl (by simp [jsField, hfield])) hBshape
                  (by decide)
              · intro s hsome _
                simp [proxyFinalOutput, hst, hfield] at hsome
          | some v =>
              match v with
              | .str sv =>
                  have hA : jsField data "final_output" = .str sv := by
                    simp [jsField, hfield]
                  by_cases hsv : sv = ""
                  · subst hsv
                    refine ⟨?_, ?_, hthd⟩
                    · rw [hres]
                      exact jsOr_chain _ _ _ (Or.inr ⟨"", hA⟩) hBshape (by decide)
                    · intro s hsome hne
                      simp [proxyFinalOutput, hst, hfield] at hsome
                      exact absurd hsome.symm hne
                  · refine ⟨⟨sv, ?_, hsv⟩, ?_, hthd⟩
                    · rw [hres]
                      exact jsOr_chain_left _ _ _ _ hA hsv
                    · intro s hsome _
                      simp [proxyFinalOutput, hst, hfield] at hsome
                      subst hsome
                      rw [hres]
                      exact jsOr_chain_left _ _ _ _ hA hsv
              | .null =>
                  exfalso; simp [outcomeFieldOk, fieldIsStrOrAbsent, hfield] at hfo
              | .bool b =>
                  exfalso; simp [outcomeFieldOk, fieldIsStrOrAbsent, hfield] at hfo
              | .num n =>
                  exfalso; simp [outcomeFieldOk, fieldIsStrOrAbsent, hfield] at hfo
              | .arr xs =>
                  exfalso; simp [outcomeFieldOk, fieldIsStrOrAbsent, hfield] at hfo
              | .obj fs =>
                  exfalso; simp [outcomeFieldOk, fieldIsStrOrAbsent, hfield] at hfo

/-- A representative successful advice-proxy body. -/
def dedalusOkBody : Json :=
  .obj [("success", .bool true),
    ("final_output", .str "Rotate crops and test the soil pH.")]

/-- C5 witness: a concrete prompt and a successful proxy response with a
non-empty final_output. -/
theorem claim_C5_advice_total_witness :
    (outcomeFieldOk (.returns 200 (some dedalusOkBody)) "final_output" = true
      ∧ outcomeFieldOk (.returns 200 (some dedalusOkBody)) "text" = true)
    ∧ ((∃ s : String,
          getAIAdvice "What is soil health?" (.returns 200 (some dedalusOkBody))
            = .str s ∧ s ≠ "")
        ∧ (∀ s : String,
            proxyFinalOutput (.returns 200 (some dedalusOkBody)) = some s → s ≠ "" →
              getAIAdvice "What is soil health?" (.returns 200 (some dedalusOkBody))
                = .str s)
        ∧ (exceptFailed (adviceTry (.returns 200 (some dedalusOkBody))) = true →
            getAIAdvice "What is soil health?" (.returns 200 (some dedalusOkBody))
              = .str "AI advice temporarily unavailable")) :=
  ⟨⟨rfl, rfl⟩, claim_C5_advice_total "What is soil health?" _ rfl rfl⟩

/-! ### Client speech call (speakWithElevenLabs) -/

/-- What happens to the remote audio element once play is invoked. -/
inductive PlaybackOutcome where
  | ends : PlaybackOutcome
  | fails : PlaybackOutcome
  | playThrows : PlaybackOutcome
  deriving DecidableEq, Repr

/-- The browsing environment and network behavior one Listen action runs
against: the speech-proxy fetch outcome, whether window.speechSynthesis
exists, and how remote playback behaves when it is reached. -/
structure SpeechWorld where
  proxy : FetchOutcome
  synthAvailable : Bool
  playback : PlaybackOutcome

/-- The observable effects of one speakWithElevenLabs run: the successive
values assigned to the playingAudio flag, whether the on-device speech
synthesizer was invoked, and whether remote playback ran to its end. -/
structure SpeechRun where
  flagHistory : List (Option String)
  spokeLocally : Bool
  playedRemote : Bool

/-- The catch branch of speakWithElevenLabs: fall back to on-device speech
when available, clearing the flag when the utterance ends, and otherwise
clear the flag directly (the explicit else branch). -/
def speechCatch (postId : String) (synthAvailable : Bool) : SpeechRun :=
  if synthAvailable then
    { flagHistory := [some postId, none], spokeLocally := true, playedRemote := false }
  else
    { flagHistory := [some postId, none], spokeLocally := false, playedRemote := false }

/-- Shallow embedding of speakWithElevenLabs from the feed component.  The
flag is first set to the post id.  A rejected fetch, a body on which
`.json()` throws, or a rejected `play()` promise lands in the catch
branch.  On a non-ok response whose body parses, the code falls back to
on-device speech when available — and otherwise returns without ever
clearing the flag.  On an ok response the flag is cleared by the onended
or onerror callback of the audio element. -/
def speakWithElevenLabs (_text postId : String) (w : SpeechWorld) : SpeechRun :=
  match w.proxy with
  | .throws => speechCatch postId w.synthAvailable
  | .returns st body =>
      if statusOk st then
        match w.playback with
        | .ends =>
            { flagHistory := [some postId, none], spokeLocally := false,
              playedRemote := true }
        | .fails =>
            { flagHistory := [some postId, none], spokeLocally := false,
              playedRemote := false }
        | .playThrows => speechCatch postId w.synthAvailable
      else
        match body with
        | none => speechCatch postId w.synthAvailable
        | some _ =>
            if w.synthAvailable then
              { flagHistory := [some postId, none], spokeLocally := true,
                playedRemote := false }
            else
              { flagHistory := [some postId], spokeLocally := false,
                playedRemote := false }

/-- A representative speech-proxy error body (missing credential). -/
def ttsErrorBody : Json :=
  .obj [("success", .bool false), ("error", .str "ElevenLabs API key not configured")]

/-- C7: the claim says the playing-audio flag is cleared on every outcome.
When the speech proxy replies with a failure response and the browsing
environment has no speechSynthesis object, the handler returns early: the
flag is set and never cleared (while the same failure with speechSynthesis
available does clear it). -/
theorem claim_C7_flag_leak :
    speakWithElevenLabs "Sunny day on the farm" "42"
        { proxy := .returns 500 (some ttsErrorBody), synthAvailable := false,
          playback := .ends }
      = { flagHistory := [some "42"], spokeLocally := false, playedRemote := false }
    ∧ speakWithElevenLabs "Sunny day on the farm" "42"
        { proxy := .returns 500 (some ttsErrorBody), synthAvailable := true,
          playback := .ends }
      = { flagHistory := [some "42", none], spokeLocally := true, playedRemote := false } :=
  ⟨rfl, rfl⟩

/-! ### handleSubmit control flow -/

/-- The post categories of the feed form. -/
inductive PostType where
  | update : PostType
  | advice : PostType
  | soil : PostType
  | crop : PostType
  | question : PostType
  deriving DecidableEq, Repr

/-- The effects of one handleSubmit invocation, in the order the code
performs them.  The body is a single async function: each `await`
suspends, so the effects after it happen only once the awaited call has
resolved. -/
inductive FeedEvent where
  | createPost : FeedEvent
  | summarizingSet : FeedEvent
  | summarizeCallStart : FeedEvent
  | summarizeCallResolve : FeedEvent
  | summaryApplied : FeedEvent
  | summarizingCleared : FeedEvent
  | adviceCallStart : FeedEvent
  | adviceCallResolve : FeedEvent
  | adviceApplied : FeedEvent
  deriving DecidableEq, Repr

/-- The event sequence of one handleSubmit run for a non-blank submission
of the given type: the post is created and prepended; the summarization
call is awaited and its result applied; only then, and only for question
posts, the advice call is started, awaited and applied. -/
def handleSubmitEvents (t : PostType) : List FeedEvent :=
  [.createPost, .summarizingSet, .summarizeCallStart, .summarizeCallResolve,
    .summaryApplied, .summarizingCleared]
  ++ if t = PostType.question then
      [.adviceCallStart, .adviceCallResolve, .adviceApplied]
    else []

/-- C4 counterexample: the claim says the advice call starts before the
summarization call completes.  In the question trace the advice call
start is not before the summarization resolution — it comes strictly
after it. -/
theorem claim_C4_cx :
    ¬ ((handleSubmitEvents .question).indexOf .adviceCallStart
        < (handleSubmitEvents .question).indexOf .summarizeCallResolve)
    ∧ (handleSubmitEvents .question).indexOf .summarizeCallResolve
        < (handleSubmitEvents .question).indexOf .adviceCallStart := by
  decide

/-- C4 (amended): the advice call is triggered exactly for question posts,
and only strictly after the summarization call has started, resolved and
had its result applied; the advice result is applied after that.  The two
calls are strictly sequential, never concurrently in flight. -/
theorem claim_C4_sequential (t : PostType) :
    (FeedEvent.adviceCallStart ∈ handleSubmitEvents t ↔ t = PostType.question)
    ∧ (t = PostType.question →
        (handleSubmitEvents t).indexOf .summarizeCallStart
          < (handleSubmitEvents t).indexOf .summarizeCallResolve
        ∧ (handleSubmitEvents t).indexOf .summarizeCallResolve
          < (handleSubmitEvents t).indexOf .summaryApplied
        ∧ (handleSubmitEvents t).indexOf .summaryApplied
          < (handleSubmitEvents t).indexOf .adviceCallStart
        ∧ (handleSubmitEvents t).indexOf .adviceCallStart
          < (handleSubmitEvents t).indexOf .adviceApplied) := by
  cases t <;> decide

/-- C4 witness: the amended ordering evaluated on the question trace. -/
theorem claim_C4_sequential_witness :
    (FeedEvent.adviceCallStart ∈ handleSubmitEvents .question
      ↔ PostType.question = PostType.question)
    ∧ (PostType.question = PostType.question →
        (handleSubmitEvents .question).indexOf .summarizeCallStart
          < (handleSubmitEvents .question).indexOf .summarizeCallResolve
        ∧ (handleSubmitEvents .question).indexOf .summarizeCallResolve
          < (handleSubmitEvents .question).indexOf .summaryApplied
        ∧ (handleSubmitEvents .question).indexOf .summaryApplied
          < (handleSubmitEvents .question).indexOf .adviceCallStart
        ∧ (handleSubmitEvents .question).indexOf .adviceCallStart
          < (handleSubmitEvents .question).indexOf .adviceApplied) :=
  claim_C4_sequential PostType.question

/-! ### Decimal rendering of the millisecond clock

The post id is `Date.now().toString()`: the decimal rendering of the
millisecond clock.  Distinct clock values render to distinct ids; this is
proved by reading the numeric value back from the digit characters. -/

/-- The numeric value read back from a list of decimal digit characters. -/
def digitsVal (l : List Char) : Nat :=
  l.foldl (fun acc c => acc * 10 + (c.toNat - 48)) 0

theorem digitChar_toNat (d : Nat) (h : d < 10) :
    (Nat.digitChar d).toNat - 48 = d := by
  interval_cases d <;> decide

theorem toDigitsCore_succ (b f n : Nat) (ds : List Char) :
    Nat.toDigitsCore b (f + 1) n ds
      = if n / b = 0 then Nat.digitChar (n % b) :: ds
        else Nat.toDigitsCore b f (n / b) (Nat.digitChar (n % b) :: ds) := rfl

theorem toDigitsCore_foldl (n : Nat) :
    ∀ (fuel : Nat) (ds : List Char), n < fuel →
      List.foldl (fun acc c => acc * 10 + (c.toNat - 48)) 0
          (Nat.toDigitsCore 10 fuel n ds)
        = List.foldl (fun acc c => acc * 10 + (c.toNat - 48)) n ds := by
  induction n using Nat.strong_induction_on with
  | _ n ih =>
    intro fuel ds hf
    match fuel, hf with
    | f + 1, hf =>
      rw [toDigitsCore_succ]
      by_cases h0 : n / 10 = 0
      · rw [if_pos h0, List.foldl_cons]
        have hlt : n < 10 := by omega
        have hv : 0 * 10 + ((Nat.digitChar (n % 10)).toNat - 48) = n := by
          rw [digitChar_toNat _ (Nat.mod_lt _ (by norm_num))]
          omega
        rw [hv]
      · rw [if_neg h0]
        have hpos : 0 < n := by
          rcases Nat.eq_zero_or_pos n with h | h
          · subst h; simp at h0
          · exact h
        have hlt : n / 10 < n := Nat.div_lt_self hpos (by norm_num)
        have hf' : n / 10 < f := by omega
        rw [ih (n / 10) hlt f _ hf', List.foldl_cons]
        have hv : n / 10 * 10 + ((Nat.digitChar (n % 10)).toNat - 48) = n := by
          rw [digitChar_toNat _ (Nat.mod_lt _ (by norm_num))]
          omega
        rw [hv]

theorem repr_digitsVal (n : Nat) : digitsVal (Nat.repr n).data = n := by
  unfold digitsVal
  have hdata : (Nat.repr n).data = Nat.toDigits 10 n := rfl
  rw [hdata]
  unfold Nat.toDigits
  simpa using toDigitsCore_foldl n (n + 1) [] (Nat.lt_succ_self n)

theorem natRepr_injective : Function.Injective Nat.repr := by
  intro a b h
  have h2 := congrArg (fun s => digitsVal s.data) h
  simp only [repr_digitsVal] at h2
  exact h2

/-! ### The in-memory post list and handleSubmit (feed component) -/

/-- The post record of the feed component. -/
structure Post where
  id : String
  author : String
  content : String
  summary : Option String
  timestamp : Nat
  type : PostType
  deriving DecidableEq, Repr

/-- One form submission: the millisecond clock at submit time, the text,
and the selected post type. -/
structure Submission where
  clock : Nat
  content : String
  postType : PostType
  deriving DecidableEq, Repr

/-- The post record handleSubmit creates: id is the decimal rendering of
the millisecond clock, the author is the fixed "You", the summary starts
absent, and the timestamp is the creation instant. -/
def makePost (clock : Nat) (content : String) (t : PostType) : Post :=
  { id := toString clock, author := "You", content := content,
    summary := none, timestamp := clock, type := t }

/-- The guard `!newPost.trim()`: a submission is blank exactly when its
content trims to the empty string, i.e. consists of whitespace only.
(String.trim itself is defined by well-founded recursion and does not
reduce in the kernel, so the equivalent all-whitespace test is used.) -/
def blankContent (s : String) : Bool := s.data.all Char.isWhitespace

/-- The submit path of handleSubmit on the post list: a blank (after trim)
submission is rejected, otherwise the new post is prepended at the head. -/
def handleSubmit (posts : List Post) (s : Submission) : List Post :=
  if blankContent s.content then posts
  else makePost s.clock s.content s.postType :: posts

/-- The post list after a session's sequence of submissions. -/
def runFeed (subs : List Submission) : List Post :=
  subs.foldl handleSubmit []

/-- The update applied when a summary or advice result arrives:
`setPosts(prev => prev.map(p => p.id === postId ? { ...p, summary } : p))`. -/
def applyResult (posts : List Post) (postId : String) (summary : String) : List Post :=
  posts.map fun p => if p.id = postId then { p with summary := some summary } else p

theorem runFeed_go (subs : List Submission) (acc : List Post) :
    subs.foldl handleSubmit acc
      = ((subs.filter fun s => !(blankContent s.content)).map
          (fun s => makePost s.clock s.content s.postType)).reverse ++ acc := by
  induction subs generalizing acc with
  | nil => simp
  | cons s rest ih =>
      rw [List.foldl_cons, ih]
      cases h : blankContent s.content with
      | true => simp [handleSubmit, h, List.filter_cons]
      | false => simp [handleSubmit, h, List.filter_cons, List.append_assoc]

theorem runFeed_eq (subs : List Submission) :
    runFeed subs
      = ((subs.filter fun s => !(blankContent s.content)).map
          (fun s => makePost s.clock s.content s.postType)).reverse := by
  simpa using runFeed_go subs []

/-- C9 counterexample: two submissions in the same millisecond get the
same time-based id, so the ids of the in-memory list are not pairwise
distinct. -/
theorem claim_C9_cx :
    ¬ ((runFeed [⟨1700000000000, "first post", .update⟩,
          ⟨1700000000000, "second post", .question⟩]).map Post.id).Nodup := by
  decide

/-- C9 (amended): provided no two submissions of the session occur in the
same millisecond, the ids of the in-memory list are pairwise distinct;
and every accepted submission is prepended at the head of the list, so
ordering is reverse-chronological by insertion. -/
theorem claim_C9_ids (subs : List Submission) (s : Submission)
    (hclocks : (subs.map Submission.clock).Nodup)
    (hs : blankContent s.content = false) :
    ((runFeed subs).map Post.id).Nodup
    ∧ runFeed (subs ++ [s]) = makePost s.clock s.content s.postType :: runFeed subs := by
  constructor
  · have hids : (runFeed subs).map Post.id
        = ((subs.filter fun s => !(blankContent s.content)).map
            (fun s => toString s.clock)).reverse := by
      rw [runFeed_eq, List.map_reverse, List.map_map]
      rfl
    rw [hids, List.nodup_reverse]
    have hnodup : (subs.filter fun s => !(blankContent s.content)).Nodup :=
      (List.filter_sublist subs).nodup (List.Nodup.of_map Submission.clock hclocks)
    refine List.Nodup.map_on ?_ hnodup
    intro x hx y hy hxy
    have hc : x.clock = y.clock := natRepr_injective hxy
    exact List.inj_on_of_nodup_map hclocks (List.mem_of_mem_filter hx)
      (List.mem_of_mem_filter hy) hc
  · rw [runFeed, List.foldl_append]
    simp [runFeed, handleSubmit, hs]

/-- The submissions used by the C9 witness. -/
def witnessSubs : List Submission :=
  [⟨1000, "hello", .update⟩, ⟨1001, "Is my soil too acidic", .question⟩]

/-- The extra submission used by the C9 witness. -/
def witnessSub : Submission := ⟨1002, "thanks all", .update⟩

/-- C9 witness: two submissions at distinct clocks, then a third one. -/
theorem claim_C9_ids_witness :
    ((witnessSubs.map Submission.clock).Nodup
      ∧ blankContent witnessSub.content = false)
    ∧ (((runFeed witnessSubs).map Post.id).Nodup
      ∧ runFeed (witnessSubs ++ [witnessSub])
        = makePost witnessSub.clock witnessSub.content witnessSub.postType
            :: runFeed witnessSubs) :=
  ⟨⟨by decide, by decide⟩, claim_C9_ids witnessSubs witnessSub (by decide) (by decide)⟩

/-- C10: applying a summary or advice result to the post list changes only
the summary field of the posts whose id matches the result's post id;
their id, author, content, timestamp and type, and every non-matching
post, are unchanged, and the list keeps its length and order. -/
theorem claim_C10_frame (posts : List Post) (postId summary : String) :
    List.Forall₂ (fun p q =>
        q.id = p.id ∧ q.author = p.author ∧ q.content = p.content
        ∧ q.timestamp = p.timestamp ∧ q.type = p.type
        ∧ (p.id = postId → q.summary = some summary)
        ∧ (p.id ≠ postId → q.summary = p.summary))
      posts (applyResult posts postId summary) := by
  induction posts with
  | nil => simp [applyResult]
  | cons p rest ih =>
      simp only [applyResult, List.map_cons]
      refine List.Forall₂.cons ?_ ?_
      · by_cases h : p.id = postId
        · simp [h]
        · simp [h]
      · simpa [applyResult] using ih

/-- A post used by the C10 witness. -/
def witnessPostA : Post :=
  { id := "1000", author := "You", content := "hello", summary := none,
    timestamp := 1000, type := .update }

/-- Another post used by the C10 witness. -/
def witnessPostB : Post :=
  { id := "1001", author := "You", content := "Is my soil too acidic",
    summary := some "local summary", timestamp := 1001, type := .question }

/-- C10 witness: the frame property evaluated on a two-post list where the
second post matches the arriving result. -/
theorem claim_C10_frame_witness :
    List.Forall₂ (fun p q =>
        q.id = p.id ∧ q.author = p.author ∧ q.content = p.content
        ∧ q.timestamp = p.timestamp ∧ q.type = p.type
        ∧ (p.id = "1001" → q.summary = some "Test your soil pH first.")
        ∧ (p.id ≠ "1001" → q.summary = p.summary))
      [witnessPostA, witnessPostB]
      (applyResult [witnessPostA, witnessPostB] "1001" "Test your soil pH first.") :=
  claim_C10_frame [witnessPostA, witnessPostB] "1001" "Test your soil pH first."

end Farmwise
